import Mathlib

/-!
Verification development for the tiered entity resolver of the
uk-food-nutrition-data-platform repository.

The definitions below are a shallow embedding, translated from the Python
source files:

* `src/api/repositories/fsa_repository.py` (`FSARepository`)
* `src/api/repositories/off_repository.py` (`OFFRepository`)
* `src/core/models/establishment.py` (`Establishment`)
* `src/core/models/product_eco.py` (`ProductEco`)
* `src/collectors/external_apis/fsa_client.py` / `off_client.py`
* `src/api/database/redis_client.py` (`RedisClient`)

Machine integers are modelled as `Nat` with explicit reduction modulo
`2 ^ 32` where the MD5 algorithm overflows; timestamps are modelled as
integer epoch seconds (`Int`).
-/

/-! ## Python values

A small model of the Python values that flow through the repository layer:
JSON-serialisable data (`None`, booleans, integers, strings, lists, dicts).
-/

inductive PyVal where
  | none : PyVal
  | bool : Bool → PyVal
  | int : Int → PyVal
  | str : String → PyVal
  | list : List PyVal → PyVal
  | dict : List (String × PyVal) → PyVal

/-- Python truthiness: `None`, `False`, `0`, `""`, `[]` and `\x7b\x7d` are
falsy; everything else is truthy.  This is the semantics of the
`if cached:` checks in `FSARepository` / `OFFRepository`. -/
def pyTruthy : PyVal → Bool
  | PyVal.none => false
  | PyVal.bool b => b
  | PyVal.int n => decide (n ≠ 0)
  | PyVal.str s => !s.isEmpty
  | PyVal.list xs => !xs.isEmpty
  | PyVal.dict ps => !ps.isEmpty

/-- Truthiness of `_cache_get`'s result: Python `None` (a miss) is falsy,
a returned value is truthy iff the value itself is. -/
def truthyHit : Option PyVal → Bool
  | Option.none => false
  | Option.some v => pyTruthy v

/-- JSON string escaping for the characters `json.dumps` always escapes
that can occur here (backslash and double quote; other values used by the
repository are plain identifiers and postcodes). -/
def jsonEscape (s : String) : String :=
  String.join (s.data.map fun c =>
    if c = '"' then "\\\"" else if c = '\\' then "\\\\" else String.mk [c])

/-- A JSON string literal. -/
def jsonQuote (s : String) : String := "\"" ++ jsonEscape s ++ "\""

mutual
/-- `json.dumps` with the default separators `", "` and `": "`, as used by
`FSARepository._get_cache_key` / `OFFRepository._get_cache_key` and
`RedisClient.set`. -/
def jsonDumps : PyVal → String
  | PyVal.none => "null"
  | PyVal.bool true => "true"
  | PyVal.bool false => "false"
  | PyVal.int n => toString n
  | PyVal.str s => jsonQuote s
  | PyVal.list xs => "[" ++ jsonDumpsList xs ++ "]"
  | PyVal.dict ps => "\x7b" ++ jsonDumpsPairs ps ++ "\x7d"

/-- Comma-separated serialisation of a JSON array body. -/
def jsonDumpsList : List PyVal → String
  | [] => ""
  | [x] => jsonDumps x
  | x :: y :: xs => jsonDumps x ++ ", " ++ jsonDumpsList (y :: xs)

/-- Comma-separated serialisation of a JSON object body. -/
def jsonDumpsPairs : List (String × PyVal) → String
  | [] => ""
  | [(k, v)] => jsonQuote k ++ ": " ++ jsonDumps v
  | (k, v) :: p :: ps => jsonQuote k ++ ": " ++ jsonDumps v ++ ", " ++ jsonDumpsPairs (p :: ps)
end

/-! ## Sorting of keyword parameters (`sort_keys=True`) -/

/-- Order on keyword pairs: compare the parameter names.  `json.dumps`
with `sort_keys=True` serialises object keys in sorted order. -/
def keyLE (a b : String × PyVal) : Prop := a.1 ≤ b.1

instance : DecidableRel keyLE := fun a b => inferInstanceAs (Decidable (a.1 ≤ b.1))

instance : IsTotal (String × PyVal) keyLE := ⟨fun a b => le_total a.1 b.1⟩

instance : IsTrans (String × PyVal) keyLE := ⟨fun _ _ _ h h' => le_trans h h'⟩

/-- Strict version of `keyLE`, used to identify sorted outputs. -/
def keyLT (a b : String × PyVal) : Prop := a.1 < b.1

instance : IsAntisymm (String × PyVal) keyLT := ⟨fun _ _ h h' => (lt_asymm h h').elim⟩

/-- Sort keyword parameters by parameter name (`sort_keys=True`). -/
def sortPairs (l : List (String × PyVal)) : List (String × PyVal) :=
  List.insertionSort keyLE l

/-! ## MD5 (`hashlib.md5(...).hexdigest()`)

A direct `Nat` model of MD5 (RFC 1321), with all word arithmetic reduced
modulo `2 ^ 32`.  `_get_cache_key` hashes the sorted JSON serialisation of
its keyword parameters with MD5 and uses the 32-character hex digest.
-/

/-- `2 ^ 32`: the word modulus of MD5. -/
def M32 : Nat := 4294967296

/-- Rotate a 32-bit word left by `c` bits. -/
def rotl (x c : Nat) : Nat :=
  ((x % M32) <<< c) % M32 ||| ((x % M32) >>> (32 - c))

/-- The 64 MD5 sine-derived constants `K`. -/
def md5K : List Nat :=
  [0xd76aa478, 0xe8c7b756, 0x242070db, 0xc1bdceee,
   0xf57c0faf, 0x4787c62a, 0xa8304613, 0xfd469501,
   0x698098d8, 0x8b44f7af, 0xffff5bb1, 0x895cd7be,
   0x6b901122, 0xfd987193, 0xa679438e, 0x49b40821,
   0xf61e2562, 0xc040b340, 0x265e5a51, 0xe9b6c7aa,
   0xd62f105d, 0x02441453, 0xd8a1e681, 0xe7d3fbc8,
   0x21e1cde6, 0xc33707d6, 0xf4d50d87, 0x455a14ed,
   0xa9e3e905, 0xfcefa3f8, 0x676f02d9, 0x8d2a4c8a,
   0xfffa3942, 0x8771f681, 0x6d9d6122, 0xfde5380c,
   0xa4beea44, 0x4bdecfa9, 0xf6bb4b60, 0xbebfbc70,
   0x289b7ec6, 0xeaa127fa, 0xd4ef3085, 0x04881d05,
   0xd9d4d039, 0xe6db99e5, 0x1fa27cf8, 0xc4ac5665,
   0xf4292244, 0x432aff97, 0xab9423a7, 0xfc93a039,
   0x655b59c3, 0x8f0ccc92, 0xffeff47d, 0x85845dd1,
   0x6fa87e4f, 0xfe2ce6e0, 0xa3014314, 0x4e0811a1,
   0xf7537e82, 0xbd3af235, 0x2ad7d2bb, 0xeb86d391]

/-- The 64 MD5 per-round left-rotation amounts `s`. -/
def md5S : List Nat :=
  [7, 12, 17, 22, 7, 12, 17, 22, 7, 12, 17, 22, 7, 12, 17, 22,
   5, 9, 14, 20, 5, 9, 14, 20, 5, 9, 14, 20, 5, 9, 14, 20,
   4, 11, 16, 23, 4, 11, 16, 23, 4, 11, 16, 23, 4, 11, 16, 23,
   6, 10, 15, 21, 6, 10, 15, 21, 6, 10, 15, 21, 6, 10, 15, 21]

/-- Word `g` of a 64-byte chunk, assembled little-endian. -/
def chunkWord (blk : List Nat) (g : Nat) : Nat :=
  blk.getD (4 * g) 0 + 256 * blk.getD (4 * g + 1) 0 +
    65536 * blk.getD (4 * g + 2) 0 + 16777216 * blk.getD (4 * g + 3) 0

/-- One of the 64 MD5 rounds on the state `(a, b, c, d)`. -/
def md5Step (blk : List Nat) (st : Nat × Nat × Nat × Nat) (i : Nat) :
    Nat × Nat × Nat × Nat :=
  match st with
  | (a, b, c, d) =>
    let fg : Nat × Nat :=
      if i < 16 then ((b &&& c) ||| ((b ^^^ 0xffffffff) &&& d), i)
      else if i < 32 then ((d &&& b) ||| ((d ^^^ 0xffffffff) &&& c), (5 * i + 1) % 16)
      else if i < 48 then (b ^^^ c ^^^ d, (3 * i + 5) % 16)
      else (c ^^^ (b ||| (d ^^^ 0xffffffff)), (7 * i) % 16)
    let f := (((fg.1 + a) % M32 + md5K.getD i 0) % M32 + chunkWord blk fg.2) % M32
    (d, (b + rotl f (md5S.getD i 0)) % M32, b, c)

/-- Process one 64-byte chunk. -/
def md5Chunk (st : Nat × Nat × Nat × Nat) (blk : List Nat) :
    Nat × Nat × Nat × Nat :=
  match st, (List.range 64).foldl (md5Step blk) st with
  | (a0, b0, c0, d0), (a, b, c, d) =>
    ((a0 + a) % M32, (b0 + b) % M32, (c0 + c) % M32, (d0 + d) % M32)

/-- Split a byte list into 64-byte chunks. -/
def toChunks : List Nat → List (List Nat)
  | [] => []
  | x :: xs => (x :: xs).take 64 :: toChunks ((x :: xs).drop 64)
termination_by l => l.length
decreasing_by
  simp only [List.length_drop, List.length_cons]
  omega

/-- MD5 padding: a `0x80` byte, zeros to 56 mod 64, then the bit length
little-endian in 8 bytes. -/
def md5Pad (msg : List Nat) : List Nat :=
  let len := msg.length
  let padLen := (119 - len % 64) % 64
  let bitLen := (len * 8) % 2 ^ 64
  msg ++ [128] ++ List.replicate padLen 0 ++
    (List.range 8).map (fun i => bitLen / 2 ^ (8 * i) % 256)

/-- The four MD5 state words of a byte message. -/
def md5Words (msg : List Nat) : Nat × Nat × Nat × Nat :=
  (toChunks (md5Pad msg)).foldl md5Chunk
    (0x67452301, 0xefcdab89, 0x98badcfe, 0x10325476)

/-- A hex digit character (`0`-`9`, `a`-`f`). -/
def hexDigit (n : Nat) : Char :=
  if n < 10 then Char.ofNat (48 + n) else Char.ofNat (87 + n)

/-- Two-character lowercase hex rendering of one byte. -/
def byteHex (b : Nat) : String :=
  String.mk [hexDigit (b / 16 % 16), hexDigit (b % 16)]

/-- Eight-character hex rendering of one state word, little-endian
byte order as in `hexdigest()`. -/
def wordHexLE (w : Nat) : String :=
  byteHex (w % 256) ++ byteHex (w / 256 % 256) ++
    byteHex (w / 65536 % 256) ++ byteHex (w / 16777216 % 256)

/-- UTF-8 bytes of a string (`params_str.encode()`). -/
def strBytes (s : String) : List Nat :=
  s.toUTF8.data.toList.map (fun b => b.toNat)

/-- `hashlib.md5(s.encode()).hexdigest()`. -/
def md5hex (s : String) : String :=
  match md5Words (strBytes s) with
  | (a, b, c, d) => wordHexLE a ++ wordHexLE b ++ wordHexLE c ++ wordHexLE d

/-! ## Cache key derivation (`FSARepository._get_cache_key`) -/

/-- `FSARepository._get_cache_key`: serialise the keyword parameters with
sorted keys, hash with MD5, and prefix with registry and operation name:
`f"fsa:\x7bprefix\x7d:\x7bparams_hash\x7d"`. -/
def fsaGetCacheKey (pfx : String) (kwargs : List (String × PyVal)) : String :=
  "fsa:" ++ pfx ++ ":" ++ md5hex (jsonDumps (PyVal.dict (sortPairs kwargs)))

/-- The point-lookup cache key of `FSARepository.get_establishment`:
`f"fsa:establishment:\x7bfhrsid\x7d"` embeds the natural key directly. -/
def estCacheKey (fhrsid : Int) : String :=
  "fsa:establishment:" ++ toString fhrsid

/-! ## Staleness gate (`Establishment.is_stale`, `ProductEco.is_stale`)

Both models declare

  `@property`
  `def is_stale(self, hours: int = 24) -> bool: ...`

whose body returns `True` when `cached_at` is unset, else whether the age
of `cached_at` exceeds `hours * 3600` seconds.
-/

/-- The body of the `is_stale` property, over epoch-second timestamps. -/
def isStale (cachedAt : Option Int) (now : Int) (hours : Int) : Bool :=
  match cachedAt with
  | Option.none => true
  | Option.some t => decide (now - t > hours * 3600)

/-- Exceptions that can escape the repository layer in the modelled paths:
the `TypeError` raised by calling a `bool`, and a persistent-store
(SQLAlchemy) error raised by `_save_establishment` / `_save_product`. -/
inductive PyExn where
  | typeErrorBoolNotCallable : PyExn
  | storeError : PyExn
deriving DecidableEq

/-- Because `is_stale` is declared `@property`, the attribute access
`db_record.is_stale` already evaluates the property body to a `bool`; the
source then writes `db_record.is_stale()`, applying call parentheses to
that `bool`.  In Python this raises `TypeError: 'bool' object is not
callable`, unconditionally. -/
def pyCallBool (_ : Bool) : Except PyExn Bool :=
  Except.error PyExn.typeErrorBoolNotCallable

/-! ## The FSA resolver (`FSARepository`)

The repository's collaborators (Redis cache, SQLAlchemy session, FSA
client, transformer) are modelled as components of a `FsaWorld`.  The
volatile cache is modelled at the value level: `RedisClient.set` stores
`json.dumps(value)` — a string that is never empty (see
`jsonDumps_ne_empty` below) — so `RedisClient.get`'s `if value:` test
always passes for a stored entry and `get` returns the deserialised
value; transport or decode failures and absent keys all yield `None`,
collapsed here into `Option.none`. -/

/-- Observable side effects of one repository call: volatile-cache reads
(`redis.get`), volatile-cache writes (`redis.set`), and persistent-store
upserts (`_save_establishment`). -/
inductive Effect where
  | cacheGet : String → Effect
  | cacheSet : String → Effect
  | upsertEst : Effect
deriving DecidableEq

/-- What the resolver reads from a persisted establishment row:
its `cached_at` timestamp (for the staleness gate) and its `to_dict()`
rendering (the value returned and cached). -/
structure EstRecord where
  cachedAt : Option Int
  dict : PyVal

/-- The collaborators of `FSARepository`, as one explicit world:
the cache flag and cache contents, the database point lookup and filtered
search, the upstream client's two calls (raising the typed `FSAAPIError`
modelled as `Except.error`), the pure transformer
`_transform_fsa_data`, a flag making the store upsert raise, and the
current time. -/
structure FsaWorld where
  cacheEnabled : Bool
  cache : String → Option PyVal
  dbLookup : Int → Option EstRecord
  dbSearch : Option String → Option String → Option String → Int → List EstRecord
  apiGet : Int → Except Unit PyVal
  apiSearch : Option String → Option String → Option String → Int → Except Unit (List PyVal)
  transform : PyVal → PyVal
  storeFault : Bool
  now : Int

/-- `FSARepository._cache_get`: return `None` without touching the cache
port when caching is disabled, else `redis.get(key)`. -/
def cacheGetOp (w : FsaWorld) (k : String) : Option PyVal × List Effect :=
  if w.cacheEnabled then (w.cache k, [Effect.cacheGet k]) else (Option.none, [])

/-- `FSARepository._cache_set`: a no-op when caching is disabled, else a
best-effort `redis.set` (which swallows its own failures). -/
def cacheSetOp (w : FsaWorld) (k : String) : List Effect :=
  if w.cacheEnabled then [Effect.cacheSet k] else []

/-- The `# Fetch from API` block of `get_establishment`: the `try` window
covers the client call, the transform, `_save_establishment` and
`_cache_set`, but its `except` clause catches only `FSAAPIError`; a
store error raised by `_save_establishment` therefore propagates. -/
def fsaFetchPath (w : FsaWorld) (fhrsid : Int) (ck : String) (eff : List Effect) :
    Except PyExn PyVal × List Effect :=
  match w.apiGet fhrsid with
  | Except.error _ => (Except.ok PyVal.none, eff)
  | Except.ok raw =>
    let data := w.transform raw
    if w.storeFault then (Except.error PyExn.storeError, eff)
    else (Except.ok data, eff ++ [Effect.upsertEst] ++ cacheSetOp w ck)

/-- `FSARepository.get_establishment(fhrsid, force_refresh)`:
cache check, then database check behind the `db_record.is_stale()` call,
then the upstream fetch path. -/
def getEstablishment (w : FsaWorld) (fhrsid : Int) (forceRefresh : Bool) :
    Except PyExn PyVal × List Effect :=
  let ck := estCacheKey fhrsid
  let c1 := if forceRefresh then (Option.none, ([] : List Effect)) else cacheGetOp w ck
  if truthyHit c1.1 then (Except.ok (c1.1.getD PyVal.none), c1.2)
  else
    match (if forceRefresh then Option.none else w.dbLookup fhrsid) with
    | Option.some dbRec =>
      match pyCallBool (isStale dbRec.cachedAt w.now 24) with
      | Except.error e => (Except.error e, c1.2)
      | Except.ok st =>
        if !st then (Except.ok dbRec.dict, c1.2 ++ cacheSetOp w ck)
        else fsaFetchPath w fhrsid ck c1.2
    | Option.none => fsaFetchPath w fhrsid ck c1.2

/-- Lift the optional string filters of `search_establishments` into the
keyword-parameter values passed to `_get_cache_key`. -/
def optStr : Option String → PyVal
  | Option.none => PyVal.none
  | Option.some s => PyVal.str s

/-- The search cache key built by `search_establishments` via
`_get_cache_key("search", name=..., postcode=..., rating_value=...,
limit=...)`. -/
def fsaSearchKey (name postcode rating : Option String) (limit : Int) : String :=
  fsaGetCacheKey "search"
    [("name", optStr name), ("postcode", optStr postcode),
     ("rating_value", optStr rating), ("limit", PyVal.int limit)]

/-- `FSARepository.search_establishments`: cache check, database query
(returned immediately when non-empty, with no per-row staleness check),
then the upstream fallback which transforms and saves each returned
establishment; `except FSAAPIError` degrades to the empty list. -/
def searchEstablishments (w : FsaWorld) (name postcode rating : Option String)
    (limit : Int) (forceRefresh : Bool) : Except PyExn PyVal × List Effect :=
  let ck := fsaSearchKey name postcode rating limit
  let c1 := if forceRefresh then (Option.none, ([] : List Effect)) else cacheGetOp w ck
  if truthyHit c1.1 then (Except.ok (c1.1.getD PyVal.none), c1.2)
  else
    let dbres := if forceRefresh then [] else w.dbSearch name postcode rating limit
    if !dbres.isEmpty then
      (Except.ok (PyVal.list (dbres.map EstRecord.dict)), c1.2 ++ cacheSetOp w ck)
    else
      match w.apiSearch name postcode rating limit with
      | Except.error _ => (Except.ok (PyVal.list []), c1.2)
      | Except.ok raws =>
        if w.storeFault && !raws.isEmpty then (Except.error PyExn.storeError, c1.2)
        else
          (Except.ok (PyVal.list (raws.map w.transform)),
            c1.2 ++ raws.map (fun _ => Effect.upsertEst) ++ cacheSetOp w ck)

/-! ## Upstream client retry (`FSAClient._request`, `OFFClient._request`)

Both clients decorate `_request` with

  `@retry(stop=stop_after_attempt(3), wait=wait_exponential(...),`
  `       retry=retry_if_exception_type((httpx.RequestError,`
  `                                      httpx.TimeoutException)))`

while the body of `_request` catches `httpx.HTTPStatusError`,
`httpx.RequestError` and `ValueError` and re-raises each as the typed
client error (`FSAAPIError` / `OFFAPIError`).
-/

/-- The transport-level outcome of one HTTP attempt: a network failure
(timeout, connection reset — an `httpx.RequestError`), a well-formed
error response (`raise_for_status` → `httpx.HTTPStatusError`), or a JSON
body. -/
inductive Attempt where
  | transportErr : Attempt
  | statusErr : Nat → Attempt
  | okJson : PyVal → Attempt

/-- Exceptions visible to the tenacity wrapper: the raw
`httpx.RequestError` family, and the typed client error
(`FSAAPIError` / `OFFAPIError`). -/
inductive ClientExn where
  | requestError : ClientExn
  | apiError : ClientExn
deriving DecidableEq

/-- One execution of the body of `_request`: every failure — including a
transport failure — is caught and re-raised as the typed client error, so
the raw `httpx.RequestError` never escapes the body. -/
def requestOnce (o : Attempt) : Except ClientExn PyVal :=
  match o with
  | Attempt.okJson v => Except.ok v
  | Attempt.statusErr _ => Except.error ClientExn.apiError
  | Attempt.transportErr => Except.error ClientExn.apiError

/-- What the body would raise with no `except` clauses: the raw httpx
exception for a transport failure.  Used to state what the decorator
alone would do. -/
def requestOnceRaw (o : Attempt) : Except ClientExn PyVal :=
  match o with
  | Attempt.okJson v => Except.ok v
  | Attempt.statusErr _ => Except.error ClientExn.apiError
  | Attempt.transportErr => Except.error ClientExn.requestError

/-- `retry_if_exception_type((httpx.RequestError, httpx.TimeoutException))`:
only the raw httpx network errors are retryable; the typed client error
is not. -/
def retryIsRequestError : ClientExn → Bool
  | ClientExn.requestError => true
  | ClientExn.apiError => false

/-- The tenacity loop: run the body; on success return; on a retryable
exception with attempts remaining, run again; otherwise re-raise.  The
second component counts the attempts performed. -/
def tenacityRun (retryOn : ClientExn → Bool) (body : Nat → Except ClientExn PyVal) :
    Nat → Nat → Except ClientExn PyVal × Nat
  | done, 0 => (Except.error ClientExn.apiError, done)
  | done, fuel + 1 =>
    match body done with
    | Except.ok v => (Except.ok v, done + 1)
    | Except.error e =>
      if retryOn e && fuel != 0 then tenacityRun retryOn body (done + 1) fuel
      else (Except.error e, done + 1)

/-- `FSAClient._request` (and identically `OFFClient._request`) as
deployed: the decorated body with `stop_after_attempt(3)`, where
`outcomes n` is the transport outcome of attempt `n`. -/
def clientRequest (outcomes : Nat → Attempt) : Except ClientExn PyVal × Nat :=
  tenacityRun retryIsRequestError (fun n => requestOnce (outcomes n)) 0 3

/-- The same decorated loop over the undecorated body, showing what the
retry policy would do if the body let `httpx.RequestError` escape. -/
def clientRequestRaw (outcomes : Nat → Attempt) : Except ClientExn PyVal × Nat :=
  tenacityRun retryIsRequestError (fun n => requestOnceRaw (outcomes n)) 0 3

/-! ## Persisted rows and `_save_establishment` (FSA)

`FSARepository._transform_fsa_data` builds a flat payload dict (with
nested `address`, `scores` and `location` sub-dicts) and stamps
`cached_at = datetime.utcnow().isoformat()`.  `_save_establishment` looks
the natural key up; on a hit its update loop iterates `data.items()`,
exploding `address`, `scores` and `location` into their columns and
assigning every other key — including `rating_date` and `cached_at` —
through the `hasattr` branch, then sets `updated_at`; on a miss it
constructs a new `Establishment` whose constructor call omits
`rating_date` and stamps `cached_at=datetime.utcnow()`.
The isoformat string carried in the payload is modelled by the instant
it denotes. -/

/-- The transformed establishment payload (`_transform_fsa_data` output),
with the nested `address` / `scores` / `location` sub-dicts flattened to
the columns `_save_establishment` writes them to. -/
structure FsaData where
  fhrsid : Int
  businessName : Option String
  businessType : Option String
  businessTypeId : Option Int
  addressLine1 : Option String
  addressLine2 : Option String
  addressLine3 : Option String
  addressLine4 : Option String
  postcode : Option String
  ratingValue : Option String
  ratingDate : Option String
  ratingKey : Option String
  hygieneScore : Option Int
  structuralScore : Option Int
  confidenceScore : Option Int
  latitude : Option Float
  longitude : Option Float
  localAuthorityCode : Option Int
  localAuthorityName : Option String
  localAuthorityWebsite : Option String
  localAuthorityEmail : Option String
  schemeType : Option String
  newRatingPending : Option String
  rightToReply : Option String
  cachedAt : Int

/-- A row of the `establishments` table (the columns `_save_establishment`
touches, plus the cache-management timestamps). -/
structure EstRow where
  fhrsid : Int
  businessName : Option String
  businessType : Option String
  businessTypeId : Option Int
  addressLine1 : Option String
  addressLine2 : Option String
  addressLine3 : Option String
  addressLine4 : Option String
  postcode : Option String
  ratingValue : Option String
  ratingDate : Option String
  ratingKey : Option String
  hygieneScore : Option Int
  structuralScore : Option Int
  confidenceScore : Option Int
  latitude : Option Float
  longitude : Option Float
  localAuthorityCode : Option Int
  localAuthorityName : Option String
  localAuthorityWebsite : Option String
  localAuthorityEmail : Option String
  schemeType : Option String
  newRatingPending : Option String
  rightToReply : Option String
  cachedAt : Int
  updatedAt : Int

/-- The update branch of `_save_establishment`: the loop over
`data.items()` assigns every payload key (the `address` / `scores` /
`location` elifs write their sub-fields; every remaining key, including
`rating_date` and `cached_at`, passes the `hasattr` test), and finally
`existing.updated_at = datetime.utcnow()`. -/
def fsaUpdateRow (r : EstRow) (d : FsaData) (now : Int) : EstRow :=
  { r with
    fhrsid := d.fhrsid
    businessName := d.businessName
    businessType := d.businessType
    businessTypeId := d.businessTypeId
    addressLine1 := d.addressLine1
    addressLine2 := d.addressLine2
    addressLine3 := d.addressLine3
    addressLine4 := d.addressLine4
    postcode := d.postcode
    ratingValue := d.ratingValue
    ratingDate := d.ratingDate
    ratingKey := d.ratingKey
    hygieneScore := d.hygieneScore
    structuralScore := d.structuralScore
    confidenceScore := d.confidenceScore
    latitude := d.latitude
    longitude := d.longitude
    localAuthorityCode := d.localAuthorityCode
    localAuthorityName := d.localAuthorityName
    localAuthorityWebsite := d.localAuthorityWebsite
    localAuthorityEmail := d.localAuthorityEmail
    schemeType := d.schemeType
    newRatingPending := d.newRatingPending
    rightToReply := d.rightToReply
    cachedAt := d.cachedAt
    updatedAt := now }

/-- The insert branch of `_save_establishment`: the `Establishment(...)`
constructor call, which omits `rating_date` (left at its column default,
NULL) and stamps `cached_at=datetime.utcnow()`; `updated_at` takes its
column default. -/
def fsaNewRow (d : FsaData) (now : Int) : EstRow :=
  { fhrsid := d.fhrsid
    businessName := d.businessName
    businessType := d.businessType
    businessTypeId := d.businessTypeId
    addressLine1 := d.addressLine1
    addressLine2 := d.addressLine2
    addressLine3 := d.addressLine3
    addressLine4 := d.addressLine4
    postcode := d.postcode
    ratingValue := d.ratingValue
    ratingDate := Option.none
    ratingKey := d.ratingKey
    hygieneScore := d.hygieneScore
    structuralScore := d.structuralScore
    confidenceScore := d.confidenceScore
    latitude := d.latitude
    longitude := d.longitude
    localAuthorityCode := d.localAuthorityCode
    localAuthorityName := d.localAuthorityName
    localAuthorityWebsite := d.localAuthorityWebsite
    localAuthorityEmail := d.localAuthorityEmail
    schemeType := d.schemeType
    newRatingPending := d.newRatingPending
    rightToReply := d.rightToReply
    cachedAt := now
    updatedAt := now }

/-- `_save_establishment` over the table contents: update the first row
whose `fhrsid` matches (`.first()`), else append a new row
(`db.add`). -/
def fsaSaveEstablishment : List EstRow → FsaData → Int → List EstRow
  | [], d, now => [fsaNewRow d now]
  | r :: rs, d, now =>
    if r.fhrsid = d.fhrsid then fsaUpdateRow r d now :: rs
    else r :: fsaSaveEstablishment rs d now

/-! ## Persisted rows and `_save_product` (OFF) -/

/-- The transformed product payload (`_transform_off_data` output),
restricted to the fields `_save_product` consumes, with the nested
sub-dicts flattened. -/
structure ProdData where
  barcode : String
  productName : Option String
  genericName : Option String
  brands : Option String
  categories : Option String
  mainCategory : Option String
  ecoscoreGrade : Option String
  ecoscoreScore : Option Int
  ecoscoreData : Option PyVal
  nutriscoreGrade : Option String
  nutriscoreScore : Option Int
  carbonFootprint100g : Option Float
  manufacturingImpact : Option String
  packagingImpact : Option String
  packaging : Option String
  manufacturingPlaces : Option String
  origins : Option String
  labels : Option String
  quantity : Option String
  servingSize : Option String
  imageUrl : Option String
  imageSmallUrl : Option String
  ingredientsText : Option String
  completeness : Option Float
  cachedAt : Int

/-- A row of the `product_eco` table (the columns `_save_product`
touches, plus the cache-management timestamps). -/
structure ProdRow where
  barcode : String
  productName : Option String
  genericName : Option String
  brands : Option String
  categories : Option String
  mainCategory : Option String
  ecoscoreGrade : Option String
  ecoscoreScore : Option Int
  ecoscoreData : Option PyVal
  nutriscoreGrade : Option String
  nutriscoreScore : Option Int
  carbonFootprint100g : Option Float
  manufacturingImpact : Option String
  packagingImpact : Option String
  packaging : Option String
  manufacturingPlaces : Option String
  origins : Option String
  labels : Option String
  quantity : Option String
  servingSize : Option String
  imageUrl : Option String
  imageSmallUrl : Option String
  ingredientsText : Option String
  completeness : Option Float
  cachedAt : Int
  updatedAt : Int

/-- The update branch of `_save_product`: the explicit list of column
assignments ending in `existing.updated_at = datetime.utcnow()`.
The list assigns neither `barcode` (the matched key) nor — notably —
`cached_at`. -/
def offUpdateRow (r : ProdRow) (d : ProdData) (now : Int) : ProdRow :=
  { r with
    productName := d.productName
    genericName := d.genericName
    brands := d.brands
    categories := d.categories
    mainCategory := d.mainCategory
    ecoscoreGrade := d.ecoscoreGrade
    ecoscoreScore := d.ecoscoreScore
    ecoscoreData := d.ecoscoreData
    nutriscoreGrade := d.nutriscoreGrade
    nutriscoreScore := d.nutriscoreScore
    carbonFootprint100g := d.carbonFootprint100g
    manufacturingImpact := d.manufacturingImpact
    packagingImpact := d.packagingImpact
    packaging := d.packaging
    manufacturingPlaces := d.manufacturingPlaces
    origins := d.origins
    labels := d.labels
    quantity := d.quantity
    servingSize := d.servingSize
    imageUrl := d.imageUrl
    imageSmallUrl := d.imageSmallUrl
    ingredientsText := d.ingredientsText
    completeness := d.completeness
    updatedAt := now }

/-- The insert branch of `_save_product`: the `ProductEco(...)`
constructor call, stamping `cached_at=datetime.utcnow()`; `updated_at`
takes its column default. -/
def offNewRow (d : ProdData) (now : Int) : ProdRow :=
  { barcode := d.barcode
    productName := d.productName
    genericName := d.genericName
    brands := d.brands
    categories := d.categories
    mainCategory := d.mainCategory
    ecoscoreGrade := d.ecoscoreGrade
    ecoscoreScore := d.ecoscoreScore
    ecoscoreData := d.ecoscoreData
    nutriscoreGrade := d.nutriscoreGrade
    nutriscoreScore := d.nutriscoreScore
    carbonFootprint100g := d.carbonFootprint100g
    manufacturingImpact := d.manufacturingImpact
    packagingImpact := d.packagingImpact
    packaging := d.packaging
    manufacturingPlaces := d.manufacturingPlaces
    origins := d.origins
    labels := d.labels
    quantity := d.quantity
    servingSize := d.servingSize
    imageUrl := d.imageUrl
    imageSmallUrl := d.imageSmallUrl
    ingredientsText := d.ingredientsText
    completeness := d.completeness
    cachedAt := now
    updatedAt := now }

/-- `_save_product` over the table contents: update the first row whose
`barcode` matches (`.first()`), else append a new row (`db.add`). -/
def offSaveProduct : List ProdRow → ProdData → Int → List ProdRow
  | [], d, now => [offNewRow d now]
  | r :: rs, d, now =>
    if r.barcode = d.barcode then offUpdateRow r d now :: rs
    else r :: offSaveProduct rs d now

/-! ## Fixtures and world helpers used by the theorems below -/

/-- Classify cache-port effects (`redis.get` / `redis.set`). -/
def isCacheOp : Effect → Bool
  | Effect.cacheGet _ => true
  | Effect.cacheSet _ => true
  | Effect.upsertEst => false

/-- The same collaborators with caching force-enabled but an empty cache:
the reference run "via the store/upstream tiers" against which the
cache-disabled run is compared. -/
def emptyCacheWorld (w : FsaWorld) : FsaWorld :=
  { w with cacheEnabled := true, cache := fun _ => Option.none }

/-- The same collaborators with one cache key removed. -/
def dropKey (w : FsaWorld) (k : String) : FsaWorld :=
  { w with cache := fun q => if q = k then Option.none else w.cache q }

/-- A world whose cache is empty, whose store is empty, and whose
upstream client raises the typed error on every call. -/
def baseWorld : FsaWorld :=
  { cacheEnabled := true
    cache := fun _ => Option.none
    dbLookup := fun _ => Option.none
    dbSearch := fun _ _ _ _ => []
    apiGet := fun _ => Except.error ()
    apiSearch := fun _ _ _ _ => Except.error ()
    transform := fun v => v
    storeFault := false
    now := 82800 }

/-- The `to_dict()` rendering of the persisted fixture establishment. -/
def estDictFix : PyVal :=
  PyVal.dict [("fhrsid", PyVal.int 123456), ("business_name", PyVal.str "Test Cafe")]

/-- A raw FSA payload fixture. -/
def rawFix : PyVal :=
  PyVal.dict [("FHRSID", PyVal.int 123456), ("BusinessName", PyVal.str "Test Cafe")]

/-- World with a persisted establishment fetched 23 hours ago
(`cached_at` age below the 24-hour threshold at `now`). -/
def wC1fresh : FsaWorld :=
  { baseWorld with
    dbLookup := fun _ => Option.some ⟨Option.some 0, estDictFix⟩
    now := 82800 }

/-- World with a persisted establishment fetched 25 hours ago
(`cached_at` age above the 24-hour threshold at `now`). -/
def wC1stale : FsaWorld :=
  { baseWorld with
    dbLookup := fun _ => Option.some ⟨Option.some 0, estDictFix⟩
    now := 90000 }

/-- World in which the upstream fetch succeeds but the store upsert
raises. -/
def wC3 : FsaWorld :=
  { baseWorld with apiGet := fun _ => Except.ok rawFix, storeFault := true }

/-- World with an empty store and a one-element upstream search result. -/
def wC6 : FsaWorld :=
  { baseWorld with apiSearch := fun _ _ _ _ => Except.ok [rawFix] }

/-- World whose cache holds the serialised empty list under every key:
what a search that found nothing upstream leaves behind. -/
def wC10 : FsaWorld :=
  { baseWorld with cache := fun _ => Option.some (PyVal.list []) }

/-- A transformed establishment payload fixture carrying a rating date. -/
def dFix : FsaData :=
  { fhrsid := 123456
    businessName := Option.some "Test Cafe"
    businessType := Option.some "Restaurant"
    businessTypeId := Option.none
    addressLine1 := Option.some "1 High Street"
    addressLine2 := Option.none
    addressLine3 := Option.none
    addressLine4 := Option.none
    postcode := Option.some "SW1A1AA"
    ratingValue := Option.some "5"
    ratingDate := Option.some "2023-01-01T00:00:00"
    ratingKey := Option.none
    hygieneScore := Option.some 0
    structuralScore := Option.some 5
    confidenceScore := Option.some 5
    latitude := Option.none
    longitude := Option.none
    localAuthorityCode := Option.none
    localAuthorityName := Option.none
    localAuthorityWebsite := Option.none
    localAuthorityEmail := Option.none
    schemeType := Option.some "FHRS"
    newRatingPending := Option.none
    rightToReply := Option.none
    cachedAt := 100 }

/-- A transformed product payload fixture, transformed (and therefore
`cached_at`-stamped) at time 100. -/
def pFix : ProdData :=
  { barcode := "5000000000001"
    productName := Option.some "Test Oats"
    genericName := Option.none
    brands := Option.some "TestBrand"
    categories := Option.some "cereals"
    mainCategory := Option.none
    ecoscoreGrade := Option.some "a"
    ecoscoreScore := Option.some 90
    ecoscoreData := Option.none
    nutriscoreGrade := Option.some "a"
    nutriscoreScore := Option.some 1
    carbonFootprint100g := Option.none
    manufacturingImpact := Option.none
    packagingImpact := Option.none
    packaging := Option.none
    manufacturingPlaces := Option.none
    origins := Option.none
    labels := Option.none
    quantity := Option.some "500g"
    servingSize := Option.none
    imageUrl := Option.none
    imageSmallUrl := Option.none
    ingredientsText := Option.some "oats"
    completeness := Option.none
    cachedAt := 100 }

/-- The product row persisted by a first successful fetch at time 0. -/
def pRow0 : ProdRow := offNewRow pFix 0

/-- The establishment row persisted by a first successful fetch at
time 0. -/
def eRow0 : EstRow := fsaNewRow dFix 0

/-- The fixture payload with its rating date absent and `cached_at`
equal to the upsert instant used below. -/
def dFixNoDate : FsaData :=
  { dFix with ratingDate := Option.none }

/-- A world constructed with caching disabled. -/
def wDisabled : FsaWorld :=
  { baseWorld with cacheEnabled := false }

/-! ## Helper lemmas -/

/-- Every byte renders as exactly two hex characters. -/
theorem byteHex_length (b : Nat) : (byteHex b).length = 2 := rfl

/-- Every state word renders as exactly eight hex characters. -/
theorem wordHexLE_length (w : Nat) : (wordHexLE w).length = 8 := by
  simp [wordHexLE, String.length_append, byteHex_length]

/-- The MD5 hex digest always has 32 characters, whatever the input. -/
theorem md5hex_length (s : String) : (md5hex s).length = 32 := by
  unfold md5hex
  rcases md5Words (strBytes s) with ⟨a, b, c, d⟩
  simp [String.length_append, wordHexLE_length]

/-- The serialised form of a stored cache entry (an entity dict or a
search-result list) is never the empty string, so `RedisClient.get`'s
`if value:` test on the raw string always passes for a stored entry. -/
theorem jsonDumps_stored_ne_empty (ps : List (String × PyVal)) (xs : List PyVal) :
    jsonDumps (PyVal.dict ps) ≠ "" ∧ jsonDumps (PyVal.list xs) ≠ "" := by
  constructor <;> intro h <;>
    have hl := congrArg String.length h <;>
    simp [jsonDumps, String.length_append] at hl <;>
    exact absurd hl.2 (by decide)

/-- Sorting keyword pairs by parameter name is invariant under
permutation of the input, provided the parameter names are distinct. -/
theorem sortPairs_eq_of_perm (l₁ l₂ : List (String × PyVal)) (hp : l₁.Perm l₂)
    (hn : (l₁.map Prod.fst).Nodup) : sortPairs l₁ = sortPairs l₂ := by
  have hps : (sortPairs l₁).Perm (sortPairs l₂) :=
    (List.perm_insertionSort keyLE l₁).trans
      (hp.trans (List.perm_insertionSort keyLE l₂).symm)
  have hsymm : Symmetric (fun p q : String × PyVal => p.1 ≠ q.1) :=
    fun _ _ h => Ne.symm h
  have hd₁ : l₁.Pairwise (fun p q : String × PyVal => p.1 ≠ q.1) :=
    List.pairwise_map.mp hn
  have hd₂ : (sortPairs l₁).Pairwise (fun p q : String × PyVal => p.1 ≠ q.1) :=
    ((List.perm_insertionSort keyLE l₁).pairwise_iff (fun h => hsymm h)).mpr hd₁
  have hd₃ : (sortPairs l₂).Pairwise (fun p q : String × PyVal => p.1 ≠ q.1) :=
    (hps.pairwise_iff (fun h => hsymm h)).mp hd₂
  have hlt₁ : (sortPairs l₁).Pairwise keyLT :=
    ((List.sorted_insertionSort keyLE l₁).and hd₂).imp
      (fun h => lt_of_le_of_ne h.1 h.2)
  have hlt₂ : (sortPairs l₂).Pairwise keyLT :=
    ((List.sorted_insertionSort keyLE l₂).and hd₃).imp
      (fun h => lt_of_le_of_ne h.1 h.2)
  exact List.eq_of_perm_of_sorted hps hlt₁ hlt₂

/-! ## Claim theorems -/

/-- C1: the staleness gate of `get_establishment` is broken in the code:
`Establishment.is_stale` is a `@property`, so `db_record.is_stale()`
applies call parentheses to a `bool` and raises `TypeError` whenever a
persisted record is found with `force_refresh=False` — the fresh record
(age 23h, below the 24h threshold) is not returned from the store, the
stale record (age 25h) does not proceed to the upstream fetch, and the
store check does raise.  The first two conjuncts record what the
property body itself computes at those ages. -/
theorem store_check_raises_type_error :
    isStale (Option.some 0) 82800 24 = false ∧
    isStale (Option.some 0) 90000 24 = true ∧
    (getEstablishment wC1fresh 123456 false).1 =
      Except.error PyExn.typeErrorBoolNotCallable ∧
    (getEstablishment wC1stale 123456 false).1 =
      Except.error PyExn.typeErrorBoolNotCallable := by
  refine ⟨by decide, by decide, rfl, rfl⟩

/-- C2: the retry policy of `_request` never fires: the body's `except`
clause converts every `httpx.RequestError` into the typed client error
before tenacity can test it, so a transport failure on every attempt
raises the typed error after exactly 1 attempt (not 3); a well-formed
HTTP 404 is likewise surfaced after exactly 1 attempt (this part matches
the claim); and the decorator alone — over the undecorated body — would
indeed perform 3 attempts. -/
theorem retry_never_fires :
    clientRequest (fun _ => Attempt.transportErr) =
      (Except.error ClientExn.apiError, 1) ∧
    clientRequest (fun _ => Attempt.statusErr 404) =
      (Except.error ClientExn.apiError, 1) ∧
    clientRequestRaw (fun _ => Attempt.transportErr) =
      (Except.error ClientExn.requestError, 3) := by
  refine ⟨rfl, rfl, rfl⟩

/-- C3 counterexample: in `wC3` the upstream fetch succeeds and the store
upsert raises; `get_establishment` then propagates the store error
instead of returning the freshly transformed entity, refuting the claim
at this input. -/
theorem store_error_not_swallowed_cex :
    (getEstablishment wC3 123456 false).1 = Except.error PyExn.storeError ∧
    (Except.error PyExn.storeError : Except PyExn PyVal) ≠
      Except.ok (wC3.transform rawFix) := by
  exact ⟨rfl, fun h => Except.noConfusion h⟩

/-- C3 amended: when the upstream fetch succeeds but the store upsert
raises, the store exception propagates out of `get_establishment` (whose
`except` clause catches only `FSAAPIError`); the request does not return
the transformed entity. -/
theorem store_error_propagates (w : FsaWorld) (id : Int) (fr : Bool) (raw : PyVal)
    (hc : truthyHit (cacheGetOp w (estCacheKey id)).1 = false)
    (hdb : w.dbLookup id = Option.none)
    (hapi : w.apiGet id = Except.ok raw)
    (hfault : w.storeFault = true) :
    (getEstablishment w id fr).1 = Except.error PyExn.storeError := by
  cases fr with
  | false => simp [getEstablishment, fsaFetchPath, hc, hdb, hapi, hfault]
  | true => simp [getEstablishment, fsaFetchPath, truthyHit, hapi, hfault]

/-- C3 witness: the amended theorem applied to the concrete world
`wC3`. -/
theorem store_error_propagates_witness :
    truthyHit (cacheGetOp wC3 (estCacheKey 123456)).1 = false ∧
    (getEstablishment wC3 123456 false).1 = Except.error PyExn.storeError :=
  ⟨rfl, store_error_propagates wC3 123456 false rawFix rfl rfl rfl rfl⟩

/-- `_save_establishment` on a table containing the natural key replaces
the first matching row in place. -/
theorem fsaSave_replaces (pre post : List EstRow) (r : EstRow) (d : FsaData)
    (now : Int) (hr : r.fhrsid = d.fhrsid)
    (hpre : ∀ q ∈ pre, q.fhrsid ≠ d.fhrsid) :
    fsaSaveEstablishment (pre ++ r :: post) d now =
      pre ++ fsaUpdateRow r d now :: post := by
  induction pre with
  | nil => simp only [List.nil_append, fsaSaveEstablishment, if_pos hr]
  | cons q qs ih =>
    have hq : q.fhrsid ≠ d.fhrsid := hpre q (List.mem_cons_self q qs)
    simp only [List.cons_append, fsaSaveEstablishment, if_neg hq]
    exact congrArg (q :: ·) (ih (fun x hx => hpre x (List.mem_cons_of_mem _ hx)))

/-- `_save_product` on a table containing the natural key replaces the
first matching row in place. -/
theorem offSave_replaces (pre post : List ProdRow) (r : ProdRow) (d : ProdData)
    (now : Int) (hr : r.barcode = d.barcode)
    (hpre : ∀ q ∈ pre, q.barcode ≠ d.barcode) :
    offSaveProduct (pre ++ r :: post) d now =
      pre ++ offUpdateRow r d now :: post := by
  induction pre with
  | nil => simp only [List.nil_append, offSaveProduct, if_pos hr]
  | cons q qs ih =>
    have hq : q.barcode ≠ d.barcode := hpre q (List.mem_cons_self q qs)
    simp only [List.cons_append, offSaveProduct, if_neg hq]
    exact congrArg (q :: ·) (ih (fun x hx => hpre x (List.mem_cons_of_mem _ hx)))

/-- C4 counterexample: a product row persisted at time 0 and upserted
again from a payload fetched (and transformed) at time 100 keeps
`cached_at = 0`: the OFF update branch never assigns `cached_at`, so the
claim "sets its cached_at to the time of that fetch … for both
entities" fails at this input. -/
theorem off_upsert_keeps_old_cached_at_cex :
    (offSaveProduct [pRow0] pFix 100).map ProdRow.cachedAt = [0] ∧
    (0 : Int) ≠ 100 := by
  exact ⟨rfl, by decide⟩

/-- C4 amended: upsert mutates the existing row in place for both
entities; for Establishment the update sets `cached_at` to the
transform-time stamp carried in the payload (the time of the fetch), but
for ProductEco the update leaves `cached_at` unchanged and only
`updated_at` advances. -/
theorem upsert_in_place_cached_at :
    (∀ (pre post : List EstRow) (r : EstRow) (d : FsaData) (now : Int),
        r.fhrsid = d.fhrsid → (∀ q ∈ pre, q.fhrsid ≠ d.fhrsid) →
        fsaSaveEstablishment (pre ++ r :: post) d now =
          pre ++ fsaUpdateRow r d now :: post ∧
        (fsaUpdateRow r d now).cachedAt = d.cachedAt ∧
        (fsaUpdateRow r d now).updatedAt = now) ∧
    (∀ (pre post : List ProdRow) (r : ProdRow) (d : ProdData) (now : Int),
        r.barcode = d.barcode → (∀ q ∈ pre, q.barcode ≠ d.barcode) →
        offSaveProduct (pre ++ r :: post) d now =
          pre ++ offUpdateRow r d now :: post ∧
        (offUpdateRow r d now).cachedAt = r.cachedAt ∧
        (offUpdateRow r d now).updatedAt = now) := by
  constructor
  · intro pre post r d now hr hpre
    exact ⟨fsaSave_replaces pre post r d now hr hpre, rfl, rfl⟩
  · intro pre post r d now hr hpre
    exact ⟨offSave_replaces pre post r d now hr hpre, rfl, rfl⟩

/-- C4 witness: the amended theorem applied to a concrete one-row table
and payload. -/
theorem upsert_in_place_cached_at_witness :
    pRow0.barcode = pFix.barcode ∧
    offSaveProduct [pRow0] pFix 100 = [offUpdateRow pRow0 pFix 100] :=
  ⟨rfl,
    (upsert_in_place_cached_at.2 [] [] pRow0 pFix 100 rfl
      (fun q hq => absurd hq (List.not_mem_nil q))).1⟩

/-- C9 counterexample: two sequential `_save_establishment` upserts of
the identical payload `dFix` (which carries a rating date) do not leave
the store in the same state as one: the insert branch omits
`rating_date` (NULL), while the second upsert's update branch fills it
from the payload. -/
theorem fsa_upsert_not_idempotent_cex :
    (fsaSaveEstablishment (fsaSaveEstablishment [] dFix 100) dFix 100).map
        EstRow.ratingDate = [Option.some "2023-01-01T00:00:00"] ∧
    (fsaSaveEstablishment [] dFix 100).map EstRow.ratingDate = [Option.none] ∧
    fsaSaveEstablishment (fsaSaveEstablishment [] dFix 100) dFix 100 ≠
      fsaSaveEstablishment [] dFix 100 := by
  refine ⟨rfl, rfl, fun h => ?_⟩
  exact absurd (congrArg (List.map EstRow.ratingDate) h) (by decide)

/-- C9 amended: the second upsert always updates the single existing row
(no duplicate row, no duplicate-key error, row count preserved); for
ProductEco two sequential upserts at the same instant leave exactly the
state of one; for Establishment the same holds provided the payload's
`cached_at` equals the upsert instant and the payload carries no rating
date — otherwise the second upsert also fills `rating_date`, which the
insert branch leaves NULL. -/
theorem upsert_idempotent_amended :
    (∀ (db : List ProdRow) (d : ProdData) (now : Int),
        offSaveProduct (offSaveProduct db d now) d now =
          offSaveProduct db d now) ∧
    (∀ (db : List EstRow) (d : FsaData) (now : Int),
        d.cachedAt = now → d.ratingDate = Option.none →
        fsaSaveEstablishment (fsaSaveEstablishment db d now) d now =
          fsaSaveEstablishment db d now) ∧
    (∀ (db : List EstRow) (d : FsaData) (now : Int),
        (fsaSaveEstablishment (fsaSaveEstablishment db d now) d now).length =
          (fsaSaveEstablishment db d now).length) := by
  refine ⟨?_, ?_, ?_⟩
  · intro db d now
    induction db with
    | nil =>
      show offSaveProduct [offNewRow d now] d now = [offNewRow d now]
      have hb : (offNewRow d now).barcode = d.barcode := rfl
      simp only [offSaveProduct]
      rw [if_pos hb]
      rfl
    | cons r rs ih =>
      by_cases hr : r.barcode = d.barcode
      · have hb : (offUpdateRow r d now).barcode = d.barcode := hr
        simp only [offSaveProduct, if_pos hr, if_pos hb]
        rfl
      · simp only [offSaveProduct, if_neg hr]
        exact congrArg (r :: ·) ih
  · intro db d now h1 h2
    subst h1
    induction db with
    | nil =>
      show fsaSaveEstablishment [fsaNewRow d d.cachedAt] d d.cachedAt =
        [fsaNewRow d d.cachedAt]
      have hb : (fsaNewRow d d.cachedAt).fhrsid = d.fhrsid := rfl
      simp only [fsaSaveEstablishment]
      rw [if_pos hb]
      simp [fsaUpdateRow, fsaNewRow, h2]
    | cons r rs ih =>
      by_cases hr : r.fhrsid = d.fhrsid
      · have hb : (fsaUpdateRow r d d.cachedAt).fhrsid = d.fhrsid := rfl
        simp only [fsaSaveEstablishment, if_pos hr, if_pos hb]
        rfl
      · simp only [fsaSaveEstablishment, if_neg hr]
        exact congrArg (r :: ·) ih
  · intro db d now
    induction db with
    | nil =>
      have hb : (fsaNewRow d now).fhrsid = d.fhrsid := rfl
      simp only [fsaSaveEstablishment]
      rw [if_pos hb]
      rfl
    | cons r rs ih =>
      by_cases hr : r.fhrsid = d.fhrsid
      · have hb : (fsaUpdateRow r d now).fhrsid = d.fhrsid := rfl
        simp only [fsaSaveEstablishment, if_pos hr, if_pos hb]
        rfl
      · simp only [fsaSaveEstablishment, if_neg hr, List.length_cons, ih]

/-- C9 witness: the amended theorem applied to a payload with no rating
date, upserted twice into an empty table at the instant it was
transformed. -/
theorem upsert_idempotent_amended_witness :
    ((dFixNoDate.cachedAt = 100 ∧ dFixNoDate.ratingDate = Option.none) ∧
      fsaSaveEstablishment (fsaSaveEstablishment [] dFixNoDate 100) dFixNoDate 100 =
        fsaSaveEstablishment [] dFixNoDate 100) ∧
    offSaveProduct (offSaveProduct [] pFix 100) pFix 100 =
      offSaveProduct [] pFix 100 :=
  ⟨⟨⟨rfl, rfl⟩, upsert_idempotent_amended.2.1 [] dFixNoDate 100 rfl rfl⟩,
    upsert_idempotent_amended.1 [] pFix 100⟩

/-- C5: when the typed upstream client error is raised (the execution
reaches the fetch and the client fails after its internal handling),
`get_establishment` returns `None` and `search_establishments` returns
the empty list; the `except FSAAPIError` handlers keep the typed error
from escaping the resolver boundary. -/
theorem upstream_error_degrades (w : FsaWorld) (id : Int) (fr : Bool)
    (n p rt : Option String) (lim : Int)
    (hcg : truthyHit (cacheGetOp w (estCacheKey id)).1 = false)
    (hdb : w.dbLookup id = Option.none)
    (hapi : w.apiGet id = Except.error ())
    (hcs : truthyHit (cacheGetOp w (fsaSearchKey n p rt lim)).1 = false)
    (hdbs : w.dbSearch n p rt lim = [])
    (hapis : w.apiSearch n p rt lim = Except.error ()) :
    (getEstablishment w id fr).1 = Except.ok PyVal.none ∧
    (searchEstablishments w n p rt lim fr).1 = Except.ok (PyVal.list []) := by
  constructor
  · cases fr with
    | false => simp [getEstablishment, fsaFetchPath, hcg, hdb, hapi]
    | true => simp [getEstablishment, fsaFetchPath, truthyHit, hapi]
  · cases fr with
    | false => simp [searchEstablishments, hcs, hdbs, hapis]
    | true => simp [searchEstablishments, truthyHit, hapis]

/-- C5 witness: the theorem applied to `baseWorld`, whose cache and store
are empty and whose client raises the typed error on every call. -/
theorem upstream_error_degrades_witness :
    baseWorld.apiGet 1 = Except.error () ∧
    (getEstablishment baseWorld 1 false).1 = Except.ok PyVal.none ∧
    (searchEstablishments baseWorld (Option.some "cafe") Option.none
        Option.none 20 false).1 = Except.ok (PyVal.list []) :=
  ⟨rfl,
    (upstream_error_degrades baseWorld 1 false (Option.some "cafe")
      Option.none Option.none 20 rfl rfl rfl rfl rfl rfl).1,
    (upstream_error_degrades baseWorld 1 false (Option.some "cafe")
      Option.none Option.none 20 rfl rfl rfl rfl rfl rfl).2⟩

/-- Counting the upsert markers in a replicated effect list. -/
theorem countP_upsert_replicate (k : Nat) :
    List.countP (fun e => e == Effect.upsertEst) (List.replicate k Effect.upsertEst) = k := by
  induction k with
  | zero => rfl
  | succ k ih => simp [List.replicate_succ, List.countP_cons, ih]

/-- C6: with `force_refresh=False`, a cache miss, an empty store query
and a successful upstream search, `search_establishments` returns the
transformed upstream results and logs exactly one upsert per entity of
the returned list, within the same request. -/
theorem search_fallback_upserts (w : FsaWorld) (n p rt : Option String)
    (lim : Int) (raws : List PyVal)
    (hc : truthyHit (cacheGetOp w (fsaSearchKey n p rt lim)).1 = false)
    (hdb : w.dbSearch n p rt lim = [])
    (hapi : w.apiSearch n p rt lim = Except.ok raws)
    (hs : w.storeFault = false) :
    (searchEstablishments w n p rt lim false).1 =
      Except.ok (PyVal.list (raws.map w.transform)) ∧
    (searchEstablishments w n p rt lim false).2.countP
        (fun e => e == Effect.upsertEst) = raws.length := by
  have hmain : searchEstablishments w n p rt lim false =
      (Except.ok (PyVal.list (raws.map w.transform)),
        (cacheGetOp w (fsaSearchKey n p rt lim)).2 ++
          raws.map (fun _ => Effect.upsertEst) ++
          cacheSetOp w (fsaSearchKey n p rt lim)) := by
    simp [searchEstablishments, hc, hdb, hapi, hs]
  rw [hmain]
  refine ⟨rfl, ?_⟩
  by_cases hce : w.cacheEnabled <;>
    simp [cacheGetOp, cacheSetOp, hce, List.countP_append, List.countP_map,
      Function.comp, countP_upsert_replicate]

/-- C6 witness: the theorem applied to the concrete world `wC6`, whose
store is empty and whose upstream search returns one establishment. -/
theorem search_fallback_upserts_witness :
    wC6.apiSearch Option.none Option.none Option.none 20 = Except.ok [rawFix] ∧
    (searchEstablishments wC6 Option.none Option.none Option.none 20 false).2.countP
        (fun e => e == Effect.upsertEst) = 1 :=
  ⟨rfl,
    (search_fallback_upserts wC6 Option.none Option.none Option.none 20
      [rawFix] rfl rfl rfl rfl).2⟩

/-- C7: the search cache key is invariant under reordering of keyword
parameters with distinct names; its length is the prefix lengths plus the
fixed 32-character MD5 digest (bounded independently of parameter size);
and the point-lookup key embeds the natural key directly rather than a
hash. -/
theorem cache_key_properties (pfx : String) (l₁ l₂ : List (String × PyVal))
    (hp : l₁.Perm l₂) (hn : (l₁.map Prod.fst).Nodup) :
    fsaGetCacheKey pfx l₁ = fsaGetCacheKey pfx l₂ ∧
    (fsaGetCacheKey pfx l₁).length = pfx.length + 37 ∧
    ∀ id : Int, estCacheKey id = "fsa:establishment:" ++ toString id := by
  refine ⟨?_, ?_, fun _ => rfl⟩
  · unfold fsaGetCacheKey
    rw [sortPairs_eq_of_perm l₁ l₂ hp hn]
  · have h4 : ("fsa:" : String).length = 4 := rfl
    have h1 : (":" : String).length = 1 := rfl
    simp only [fsaGetCacheKey, String.length_append, md5hex_length, h4, h1]
    omega

/-- C7 witness: the theorem applied to two orderings of the same
two-parameter mapping. -/
theorem cache_key_properties_witness :
    ([("a", PyVal.int 1), ("b", PyVal.int 2)].map Prod.fst).Nodup ∧
    fsaGetCacheKey "search" [("a", PyVal.int 1), ("b", PyVal.int 2)] =
      fsaGetCacheKey "search" [("b", PyVal.int 2), ("a", PyVal.int 1)] :=
  ⟨by decide,
    (cache_key_properties "search" _ _
      (List.Perm.swap ("b", PyVal.int 2) ("a", PyVal.int 1) [])
      (by decide)).1⟩

/-- C8: with caching disabled, neither `get_establishment` nor
`search_establishments` performs any volatile-cache get or set (the
effect log contains no cache operation), and both return exactly what
the same collaborators produce through the store/upstream tiers (the
run with caching enabled and an empty cache). -/
theorem cache_disabled_zero_cache_calls (w : FsaWorld) (id : Int)
    (n p rt : Option String) (lim : Int) (fr : Bool)
    (hd : w.cacheEnabled = false) :
    ((getEstablishment w id fr).2.filter isCacheOp = [] ∧
      (searchEstablishments w n p rt lim fr).2.filter isCacheOp = []) ∧
    (getEstablishment w id fr).1 = (getEstablishment (emptyCacheWorld w) id fr).1 ∧
    (searchEstablishments w n p rt lim fr).1 =
      (searchEstablishments (emptyCacheWorld w) n p rt lim fr).1 := by
  refine ⟨⟨?_, ?_⟩, ?_, ?_⟩
  · cases fr <;>
      cases hdbq : w.dbLookup id <;>
      cases hapiq : w.apiGet id <;>
      cases hsf : w.storeFault <;>
        simp [getEstablishment, fsaFetchPath, cacheGetOp, cacheSetOp, hd,
          truthyHit, isCacheOp, hdbq, hapiq, hsf, pyCallBool]
  · cases fr <;>
      cases hres : w.dbSearch n p rt lim <;>
      cases hapiq : w.apiSearch n p rt lim <;>
      cases hsf : w.storeFault <;>
        simp [searchEstablishments, cacheGetOp, cacheSetOp, hd,
          truthyHit, isCacheOp, hres, hapiq, hsf, List.filter_append,
          List.filter_replicate]
    all_goals split <;> simp [List.mem_replicate]
  · cases fr <;>
      cases hdbq : w.dbLookup id <;>
      cases hapiq : w.apiGet id <;>
        simp [getEstablishment, fsaFetchPath, cacheGetOp, cacheSetOp, hd,
          truthyHit, emptyCacheWorld, hdbq, hapiq, pyCallBool]
    all_goals split <;> rfl
  · cases fr <;>
      cases hres : w.dbSearch n p rt lim <;>
      cases hapiq : w.apiSearch n p rt lim <;>
        simp [searchEstablishments, cacheGetOp, cacheSetOp, hd,
          truthyHit, emptyCacheWorld, hres, hapiq]
    all_goals split <;> rfl

/-- C8 witness: the theorem applied to a world constructed with caching
disabled. -/
theorem cache_disabled_zero_cache_calls_witness :
    wDisabled.cacheEnabled = false ∧
    (getEstablishment wDisabled 1 false).2.filter isCacheOp = [] :=
  ⟨rfl,
    ((cache_disabled_zero_cache_calls wDisabled 1 Option.none Option.none
      Option.none 20 false rfl).1).1⟩

/-- C10: a cached value that deserialises to a falsy JSON value (null,
empty list, 0, empty string) fails the `if cached:` test and is treated
as a cache miss: both operations behave exactly as they do when the key
is absent, falling through to the store/upstream tiers; in particular a
cached empty search-result list (`pyTruthy (PyVal.list []) = false`) is
never served as a hit. -/
theorem falsy_cache_value_is_miss (w : FsaWorld) (id : Int)
    (n p rt : Option String) (lim : Int) (v u : PyVal)
    (hv : w.cache (estCacheKey id) = Option.some v)
    (hvf : pyTruthy v = false)
    (hu : w.cache (fsaSearchKey n p rt lim) = Option.some u)
    (huf : pyTruthy u = false) :
    pyTruthy (PyVal.list []) = false ∧
    (getEstablishment w id false).1 =
      (getEstablishment (dropKey w (estCacheKey id)) id false).1 ∧
    (searchEstablishments w n p rt lim false).1 =
      (searchEstablishments (dropKey w (fsaSearchKey n p rt lim)) n p rt lim
        false).1 := by
  refine ⟨rfl, ?_, ?_⟩
  · by_cases hce : w.cacheEnabled <;>
      cases hdbq : w.dbLookup id <;>
      cases hapiq : w.apiGet id <;>
        simp [getEstablishment, fsaFetchPath, cacheGetOp, cacheSetOp, dropKey,
          truthyHit, hce, hv, hvf, hdbq, hapiq, pyCallBool]
  · by_cases hce : w.cacheEnabled <;>
      cases hres : w.dbSearch n p rt lim <;>
      cases hapiq : w.apiSearch n p rt lim <;>
        simp [searchEstablishments, cacheGetOp, cacheSetOp, dropKey,
          truthyHit, hce, hu, huf, hres, hapiq]

/-- C10 witness: the theorem applied to a world whose cache holds the
empty list under every key. -/
theorem falsy_cache_value_is_miss_witness :
    wC10.cache (estCacheKey 1) = Option.some (PyVal.list []) ∧
    (searchEstablishments wC10 Option.none Option.none Option.none 20 false).1 =
      (searchEstablishments
        (dropKey wC10 (fsaSearchKey Option.none Option.none Option.none 20))
        Option.none Option.none Option.none 20 false).1 :=
  ⟨rfl,
    (falsy_cache_value_is_miss wC10 1 Option.none Option.none Option.none 20
      (PyVal.list []) (PyVal.list []) rfl rfl rfl rfl).2.2⟩
